import Mathlib

/-!
Shallow embedding of the airsim-wrapper repository's core, for checking the
natural-language specification against the code.

Covered source:
* `src/controllers/sample_controller.py` — `SampleDroneController.compute_control`
* `src/controllers/base_controller.py` — persistence queue creation and
  `control_loop` / `execute_control`
* `src/communication/communication_bridge.py` — `CommunicationBridge._bridge_loop`

Numeric model: Python floats are modelled as exact rationals (`ℚ`).  The
library functions `np.sqrt`, `np.cos`, `np.sin` (whose exact values are
irrational in general) are modelled as an explicit function bundle `MathOps`
that every theorem quantifies over; theorems that need the real behaviour of
`sqrt` take hypotheses pinning down exactly the comparisons the code performs
(all of which are satisfied by real square root), and concrete evaluations
instantiate the bundle with a function that agrees with the real square root
on every argument actually reached in that run.
-/

namespace AirSim

/-- A 3-vector of rationals, modelling the `{x, y, z}` position/velocity dicts. -/
structure Vec3 where
  x : ℚ
  y : ℚ
  z : ℚ
deriving DecidableEq

/-- The part of the telemetry dict read by `compute_control`
    (`sensor_data["telemetry"]["position"]`). -/
structure Telemetry where
  position : Vec3
deriving DecidableEq

/-- The part of the sensor-frame dict read by `compute_control`:
    `sensor_data["lidar"]` (either `None` or an array of 3-D points) and
    `sensor_data["telemetry"]`. -/
structure SensorData where
  lidar : Option (List Vec3)
  telemetry : Telemetry
deriving DecidableEq

/-- An inbound message payload: `msg["payload"].get("type")` (absent key gives
    `none`) and `msg["payload"]["position"]`. -/
structure Payload where
  ptype : Option String
  position : Vec3
deriving DecidableEq

/-- An inbound message as seen by `compute_control` (only its payload is read). -/
structure Msg where
  payload : Payload
deriving DecidableEq

/-- An outbound message produced by the `send_message` call inside
    `compute_control` (recipient plus payload fields). -/
structure OutMsg where
  recipient : String
  ptype : String
  position : Vec3
  mode : String
deriving DecidableEq

/-- The fields of `SampleDroneController` (including those inherited from
    `BaseDroneController.__init__`) that exist on the Python object:
    `drone_name`, `data_dir`, the presence of `communication_pipe`,
    `target_altitude`, `safe_distance`, `other_drone_position`, `mode`,
    `timestep`. -/
structure CtrlState where
  drone_name : String
  data_dir : String
  has_comm_pipe : Bool
  target_altitude : ℚ
  safe_distance : ℚ
  other_drone_position : Option Vec3
  mode : String
  timestep : ℕ
deriving DecidableEq

/-- State produced by `SampleDroneController.__init__`, with the constructor's
    defaults `target_altitude=-10`, `safe_distance=5.0`:
    `other_drone_position = None`, `mode = "hover"`, `timestep = 0`. -/
def initCtrlState (drone_name data_dir : String) (has_comm_pipe : Bool)
    (target_altitude safe_distance : ℚ) : CtrlState :=
  { drone_name := drone_name
    data_dir := data_dir
    has_comm_pipe := has_comm_pipe
    target_altitude := target_altitude
    safe_distance := safe_distance
    other_drone_position := none
    mode := "hover"
    timestep := 0 }

/-- The `control_commands` dict returned by `compute_control`: the keys
    `"velocity"` and `"position"` that `execute_control` inspects. -/
structure ControlCommands where
  velocity : Option Vec3
  position : Option Vec3
deriving DecidableEq

/-- Python truthiness of the `control_commands` dict (`if control_commands:`):
    a dict is truthy iff it has at least one key. -/
def ControlCommands.nonempty (c : ControlCommands) : Bool :=
  c.velocity.isSome || c.position.isSome

/-- The numeric library functions used by `compute_control` (`np.sqrt`,
    `np.cos`, `np.sin`), taken as an explicit parameter of the embedding. -/
structure MathOps where
  sqrt : ℚ → ℚ
  cos : ℚ → ℚ
  sin : ℚ → ℚ

/-- Result of one `compute_control` call: the updated object state, the
    returned command dict, and the messages passed to `send_message`. -/
structure ComputeResult where
  state : CtrlState
  commands : ControlCommands
  sent : List OutMsg
deriving DecidableEq

/-- Semantics of `np.clip(v, lo, hi)`. -/
def npClip (v lo hi : ℚ) : ℚ :=
  if v < lo then lo else if hi < v then hi else v

/-- Squared Euclidean norm of a point; `np.linalg.norm(p) = sqrt (normSq p)`. -/
def normSq (p : Vec3) : ℚ :=
  p.x ^ 2 + p.y ^ 2 + p.z ^ 2

/-- Lines 23-25: the message loop overwriting `self.other_drone_position`
    with the position of each `"position_update"` payload, last one winning. -/
def updateOtherPos (other0 : Option Vec3) (messages : List Msg) : Option Vec3 :=
  messages.foldl
    (fun acc m =>
      if m.payload.ptype = some "position_update" then some m.payload.position else acc)
    other0

/-- Line 42: `points[points[:, 0] > 0]` — the points in front. -/
def frontPoints (points : List Vec3) : List Vec3 :=
  points.filter (fun p => 0 < p.x)

/-- Semantics of `np.min` on a nonempty list (`0` on the empty list, which the
    code never reaches because of its length guards). -/
def listMin : List ℚ → ℚ
  | [] => 0
  | h :: t => t.foldl min h

/-- Line 51: the lateral component of the obstacle-avoidance steering,
    `1.0 if self.drone_name == "Drone1" else -1.0`. -/
def obstacleSteerY (drone_name : String) : ℚ :=
  if drone_name = "Drone1" then 1 else -1

/-- The `(mode, vx, vy)` triple threaded through the three steering blocks of
    `compute_control`. -/
structure Steer where
  mode : String
  vx : ℚ
  vy : ℚ
deriving DecidableEq

/-- Lines 38-53: the LiDAR obstacle-avoidance block.  `mode0` is `self.mode`
    on entry; `vx`, `vy` are the velocities accumulated so far (0, 0). -/
def lidarBlock (ops : MathOps) (mode0 : String) (safe_distance : ℚ)
    (drone_name : String) (lidar : Option (List Vec3)) (vx vy : ℚ) : Steer :=
  match lidar with
  | none => ⟨mode0, vx, vy⟩
  | some points =>
    if 0 < points.length then
      let front_points := frontPoints points
      if 0 < front_points.length then
        let min_distance := listMin (front_points.map (fun p => ops.sqrt (normSq p)))
        if min_distance < safe_distance then
          ⟨"avoid", -1, obstacleSteerY drone_name⟩
        else
          ⟨"explore", vx, vy⟩
      else ⟨mode0, vx, vy⟩
    else ⟨mode0, vx, vy⟩

/-- Lines 65-68: the peer-avoidance steering
    `(-dx / distance * 2.0, -dy / distance * 2.0)` away from peer position
    `op`, seen from `current_pos`. -/
def peerAvoidVec (ops : MathOps) (current_pos op : Vec3) : ℚ × ℚ :=
  let dx := op.x - current_pos.x
  let dy := op.y - current_pos.y
  let dz := op.z - current_pos.z
  let distance_to_other := ops.sqrt (dx ^ 2 + dy ^ 2 + dz ^ 2)
  (-dx / distance_to_other * 2, -dy / distance_to_other * 2)

/-- Lines 56-68: the peer-avoidance block, run unconditionally after the
    LiDAR block on the updated `other_drone_position`. -/
def peerBlock (ops : MathOps) (safe_distance : ℚ) (current_pos : Vec3)
    (other : Option Vec3) (s : Steer) : Steer :=
  match other with
  | none => s
  | some op =>
    let dx := op.x - current_pos.x
    let dy := op.y - current_pos.y
    let dz := op.z - current_pos.z
    let distance_to_other := ops.sqrt (dx ^ 2 + dy ^ 2 + dz ^ 2)
    if distance_to_other < safe_distance * (3 / 2) then
      ⟨"avoid", (peerAvoidVec ops current_pos op).1, (peerAvoidVec ops current_pos op).2⟩
    else s

/-- Lines 73-76: the exploration pattern `(cos t * 0.5, sin t * 0.5)` with
    `t = timestep * 0.1` (the computed `pattern_size` is never used). -/
def patternVec (ops : MathOps) (timestep : ℕ) : ℚ × ℚ :=
  let t := (timestep : ℚ) * (1 / 10)
  (ops.cos t * (1 / 2), ops.sin t * (1 / 2))

/-- Lines 70-76: the exploration block, which overwrites the velocities with
    the time-parameterized pattern iff the current mode is `"explore"`. -/
def exploreBlock (ops : MathOps) (timestep : ℕ) (s : Steer) : Steer :=
  if s.mode = "explore" then
    ⟨s.mode, (patternVec ops timestep).1, (patternVec ops timestep).2⟩
  else s

/-- Line 81: the hard-wired peer name
    `"Drone2" if self.drone_name == "Drone1" else "Drone1"`. -/
def peerName (drone_name : String) : String :=
  if drone_name = "Drone1" then "Drone2" else "Drone1"

/-- `SampleDroneController.compute_control` (sample_controller.py lines
    15-106), as a function of the object state, the sensor frame and the
    inbound messages.  Side effects (field mutation, `send_message`) are
    returned explicitly; `send_message` only transmits when the object holds a
    communication pipe (base_controller.py line 306). -/
def computeControl (ops : MathOps) (st : CtrlState) (sensor_data : SensorData)
    (messages : List Msg) : ComputeResult :=
  let other := updateOtherPos st.other_drone_position messages
  let current_pos := sensor_data.telemetry.position
  let altitude_error := st.target_altitude - current_pos.z
  let vz := npClip (altitude_error * (1 / 2)) (-2) 2
  let s1 := lidarBlock ops st.mode st.safe_distance st.drone_name sensor_data.lidar 0 0
  let s2 := peerBlock ops st.safe_distance current_pos other s1
  let s3 := exploreBlock ops st.timestep s2
  let sent : List OutMsg :=
    if st.timestep % 10 = 0 ∧ st.has_comm_pipe then
      [⟨peerName st.drone_name, "position_update", current_pos, s2.mode⟩]
    else []
  { state := { st with other_drone_position := other, mode := s2.mode }
    commands :=
      { velocity := some ⟨npClip s3.vx (-3) 3, npClip s3.vy (-3) 3, npClip vz (-2) 2⟩
        position := none }
    sent := sent }

/-- Condition of line 47 (together with its guards on lines 38-43): LiDAR data
    present, at least one forward point, and the minimum of the `np.sqrt`
    distances of the forward points below `safe_distance`. -/
def obstacleNear (ops : MathOps) (safe_distance : ℚ) (lidar : Option (List Vec3)) : Bool :=
  match lidar with
  | none => false
  | some points =>
    let fp := frontPoints points
    decide (0 < points.length) && decide (0 < fp.length) &&
      decide (listMin (fp.map (fun p => ops.sqrt (normSq p))) < safe_distance)

/-- Guards of lines 38-43 alone: LiDAR data present with at least one forward
    point (so that the obstacle block reaches the comparison of line 47). -/
def lidarSeen (lidar : Option (List Vec3)) : Bool :=
  match lidar with
  | none => false
  | some points =>
    decide (0 < points.length) && decide (0 < (frontPoints points).length)

/-- Condition of line 62 (with the guard of line 56): a known peer position
    whose `np.sqrt` distance is below `safe_distance * 1.5`. -/
def peerClose (ops : MathOps) (safe_distance : ℚ) (current_pos : Vec3)
    (other : Option Vec3) : Bool :=
  match other with
  | none => false
  | some op =>
    decide (ops.sqrt ((op.x - current_pos.x) ^ 2 + (op.y - current_pos.y) ^ 2 +
      (op.z - current_pos.z) ^ 2) < safe_distance * (3 / 2))

/-- The actuation call chosen by `BaseDroneController.execute_control`
    (base_controller.py lines 393-408). -/
inductive ExecAction where
  | moveByVelocity (v : Vec3) (duration : ℚ)
  | moveToPosition (p : Vec3) (velocity : ℚ)
  | idle
deriving DecidableEq

/-- `execute_control`: `moveByVelocityAsync(vel, duration=0.1)` if the dict has
    a `"velocity"` key, else `moveToPositionAsync(pos, velocity=5)` if it has a
    `"position"` key, else nothing. -/
def executeControl (cmds : ControlCommands) : ExecAction :=
  match cmds.velocity with
  | some v => .moveByVelocity v (1 / 10)
  | none =>
    match cmds.position with
    | some p => .moveToPosition p 5
    | none => .idle

/-- The guard of `control_loop` lines 379-380: `if control_commands:` —
    `execute_control` runs only when the returned dict is truthy. -/
def controlLoopDispatch (cmds : ControlCommands) : Option ExecAction :=
  if cmds.nonempty then some (executeControl cmds) else none

/-! Model of the communication bridge (`communication_bridge.py`).

The bridge keeps one pipe pair per drone name; the routing process reads
pending raw JSON strings from each drone's endpoint and forwards them.  Raw
messages stay opaque strings; `json.loads` together with the subscript
accesses `msg_data["sender"]` / `msg_data["recipient"]` is modelled by an
abstract `decode` function, `none` standing for any exception raised there. -/

/-- The decoded fields of a routed message that `_bridge_loop` reads. -/
structure Envelope where
  sender : String
  recipient : String
deriving DecidableEq

/-- One drone's pipe pair, seen from the bridge process: `toBridge` holds raw
    messages the drone has sent (`parent_conn.poll`/`recv` reads them, oldest
    first) and `fromBridge` holds raw messages forwarded to this drone
    (`pipes[recipient]["parent"].send` appends to it). -/
structure Endpoint where
  toBridge : List String
  fromBridge : List String
deriving DecidableEq

/-- The bridge's `pipes` dict: names in registration order, each with its
    endpoint (Python dicts iterate in insertion order and have unique keys). -/
abbrev BridgeState := List (String × Endpoint)

/-- Dict lookup `pipes[name]` (first entry with the key). -/
def lookupEp : BridgeState → String → Option Endpoint
  | [], _ => none
  | (m, ep) :: rest, k => if m = k then some ep else lookupEp rest k

/-- Update the entry of key `k` in place (no-op when absent). -/
def updateEp (f : Endpoint → Endpoint) : BridgeState → String → BridgeState
  | [], _ => []
  | (m, ep) :: rest, k =>
    if m = k then (m, f ep) :: rest else (m, ep) :: updateEp f rest k

/-- One iteration of the `for sender_name, pipe_set in pipes.items()` body
    (communication_bridge.py lines 46-65) for one endpoint: poll, receive one
    raw message if pending, decode it (`true` in the second component means
    an exception was raised there, after the message was consumed), and if the
    recipient is a key of `pipes`, forward the raw message to it unmodified;
    otherwise fall through silently. -/
def processEndpoint (decode : String → Option Envelope) (s : BridgeState)
    (name : String) : BridgeState × Bool :=
  match lookupEp s name with
  | none => (s, false)
  | some ep =>
    match ep.toBridge with
    | [] => (s, false)
    | message :: rest =>
      let s1 := updateEp (fun e => { e with toBridge := rest }) s name
      match decode message with
      | none => (s1, true)
      | some env =>
        match lookupEp s1 env.recipient with
        | some _ =>
          (updateEp (fun e => { e with fromBridge := e.fromBridge ++ [message] })
            s1 env.recipient, false)
        | none => (s1, false)

/-- The `for` loop over the given names; the surrounding `try` block catches
    an exception anywhere inside the loop, so a raise abandons the rest of the
    pass (the second component reports whether that happened). -/
def passLoop (decode : String → Option Envelope) :
    List String → BridgeState → BridgeState × Bool
  | [], s => (s, false)
  | n :: rest, s =>
    match processEndpoint decode s n with
    | (s1, true) => (s1, true)
    | (s1, false) => passLoop decode rest s1

/-- One full poll pass of `_bridge_loop`'s `while True:` body over all
    registered endpoints. -/
def bridgePass (decode : String → Option Envelope) (s : BridgeState) :
    BridgeState × Bool :=
  passLoop decode (s.map Prod.fst) s

/-! Model of the persistence queue (`base_controller.py`).

`queue.Queue(maxsize)` with `maxsize <= 0` is unbounded; `put(item)` with the
default `block=True, timeout=None` appends immediately when the queue is
unbounded or not full, and otherwise blocks until space appears — `none`
models that blocked call. -/

/-- Python `queue.Queue.put` (default arguments) on a queue with bound
    `maxsize` (`0` meaning unbounded). -/
def queuePut {α : Type} (maxsize : ℕ) (q : List α) (x : α) : Option (List α) :=
  if maxsize = 0 ∨ q.length < maxsize then some (q ++ [x]) else none

/-- Line 37: `self.sensor_data_queue = queue.Queue()` — the default `maxsize`
    is `0`, i.e. unbounded. -/
def sensorQueueMaxsize : ℕ := 0

/-- The sensor frame the control loop enqueues (`collect_sensor_data`, lines
    251-261): imagery buffers, LiDAR points and telemetry, any of which may be
    `None`.  Image buffers are abstracted to byte lists. -/
structure PersistFrame where
  timestep : ℕ
  rgb : Option (List ℕ)
  ir : Option (List ℕ)
  lidar : Option (List Vec3)
  telemetry : Telemetry
deriving DecidableEq

/-- Line 370: `self.sensor_data_queue.put(sensor_data)` — the whole frame, on
    the queue created at line 37, with `put`'s default arguments. -/
def controlLoopEnqueue (q : List PersistFrame) (f : PersistFrame) :
    Option (List PersistFrame) :=
  queuePut sensorQueueMaxsize q f

/-- Iterated `control_loop` enqueues onto queue contents `q` (one per tick,
    base_controller.py line 370); `none` if some `put` blocks. -/
def enqueueFrom (q : List PersistFrame) : List PersistFrame → Option (List PersistFrame)
  | [] => some q
  | f :: rest =>
    match controlLoopEnqueue q f with
    | none => none
    | some q1 => enqueueFrom q1 rest

/-- Iterated `control_loop` enqueues starting from the fresh (empty) queue. -/
def enqueueAll (frames : List PersistFrame) : Option (List PersistFrame) :=
  enqueueFrom [] frames

/-! Concrete sample inputs used by witnesses and counterexamples. -/

/-- Sample numeric bundle for concrete runs: the identity function, used only
    in runs whose sole `sqrt` argument is `1` (where `id` agrees with the real
    square root) and that never take the explore branch (so `cos`/`sin` are
    never consulted). -/
def opsId : MathOps :=
  { sqrt := fun q => q, cos := fun q => q, sin := fun q => q }

/-- Sample numeric bundle agreeing with the real square root on every argument
    reached in the runs below (`sqrt 9 = 3`, `sqrt 4 = 2`, `sqrt 1 = 1`);
    `cos`/`sin` are never consulted in those runs because they end in AVOID
    mode. -/
def exOps : MathOps :=
  { sqrt := fun q => if q = 9 then 3 else if q = 4 then 2 else if q = 1 then 1 else 0
    cos := fun _ => 0
    sin := fun _ => 0 }

/-- Sample numeric bundle whose `sqrt` satisfies, for every `q ≥ 0`,
    `sqrt q < 5 ↔ q < 25` — the only property of the real square root that a
    threshold comparison against `safe_distance = 5` uses. -/
def opsDivFive : MathOps :=
  { sqrt := fun q => q / 5, cos := fun _ => 0, sin := fun _ => 0 }

/-- Sample frame: no LiDAR return, hovering at the default target altitude. -/
def sdNoLidar : SensorData :=
  { lidar := none, telemetry := { position := ⟨0, 0, -10⟩ } }

/-- Sample frame: one LiDAR point 2 units straight ahead (forward hemisphere,
    distance 2). -/
def sdObstacle : SensorData :=
  { lidar := some [⟨2, 0, 0⟩], telemetry := { position := ⟨0, 0, -10⟩ } }

/-- Sample state already in EXPLORE mode, with no known peer. -/
def stExplore : CtrlState :=
  { drone_name := "Drone1", data_dir := "./data", has_comm_pipe := false
    target_altitude := -10, safe_distance := 5, other_drone_position := none
    mode := "explore", timestep := 1 }

/-- Sample state fresh in HOVER mode with no known peer (constructor defaults
    `target_altitude = -10`, `safe_distance = 5`, one tick in). -/
def stHover : CtrlState :=
  { drone_name := "Drone1", data_dir := "./data", has_comm_pipe := false
    target_altitude := -10, safe_distance := 5, other_drone_position := none
    mode := "hover", timestep := 1 }

/-- Same as `stHover` but with a known peer 1 unit away (distance 1 < 7.5). -/
def stHoverPeerNear : CtrlState :=
  { stHover with other_drone_position := some ⟨1, 0, -10⟩ }

/-- Same as `stHoverPeerNear` but with a different `data_dir`. -/
def stHoverPeerNearAltDir : CtrlState :=
  { stHoverPeerNear with data_dir := "./elsewhere" }

/-- Same as `stHover` but with a known peer 3 units ahead (+x), inside the
    peer threshold `7.5`. -/
def stPeerAhead : CtrlState :=
  { stHover with other_drone_position := some ⟨3, 0, -10⟩ }

/-- Same as `stHover` but with a known peer 3 units behind (-x), inside the
    peer threshold `7.5`. -/
def stPeerBehind : CtrlState :=
  { stHover with other_drone_position := some ⟨-3, 0, -10⟩ }

/-- A sensor frame with no imagery and no point cloud, for queue runs. -/
def blankFrame : PersistFrame :=
  { timestep := 0, rgb := none, ir := none, lidar := none
    telemetry := { position := ⟨0, 0, 0⟩ } }

/-- Sample decode function: two well-formed raw packets, everything else
    malformed. -/
def exDecode : String → Option Envelope := fun m =>
  if m = "pkt_ac" then some ⟨"A", "C"⟩
  else if m = "pkt_ca" then some ⟨"C", "A"⟩
  else if m = "pkt_ba" then some ⟨"B", "A"⟩
  else none

/-! Helper lemmas about the embedded operations. -/

theorem npClip_le_hi (v lo hi : ℚ) (h : lo ≤ hi) : npClip v lo hi ≤ hi := by
  unfold npClip
  split_ifs <;> linarith

theorem lo_le_npClip (v lo hi : ℚ) (h : lo ≤ hi) : lo ≤ npClip v lo hi := by
  unfold npClip
  split_ifs <;> linarith

theorem npClip_npClip (v lo hi : ℚ) (h : lo ≤ hi) :
    npClip (npClip v lo hi) lo hi = npClip v lo hi := by
  unfold npClip
  split_ifs <;> first | rfl | linarith

theorem foldl_min_lt_iff (t : List ℚ) (h c : ℚ) :
    t.foldl min h < c ↔ h < c ∨ ∃ x ∈ t, x < c := by
  induction t generalizing h with
  | nil => simp
  | cons a t ih =>
    rw [List.foldl_cons, ih, min_lt_iff]
    constructor
    · rintro ((hh | ha) | ⟨x, hx, hxc⟩)
      · exact Or.inl hh
      · exact Or.inr ⟨a, by simp, ha⟩
      · exact Or.inr ⟨x, by simp [hx], hxc⟩
    · rintro (hh | ⟨x, hx, hxc⟩)
      · exact Or.inl (Or.inl hh)
      · rcases List.mem_cons.mp hx with rfl | hxt
        · exact Or.inl (Or.inr hxc)
        · exact Or.inr ⟨x, hxt, hxc⟩

theorem listMin_lt_iff (l : List ℚ) (c : ℚ) (hne : l ≠ []) :
    listMin l < c ↔ ∃ x ∈ l, x < c := by
  cases l with
  | nil => exact absurd rfl hne
  | cons h t =>
    rw [listMin, foldl_min_lt_iff]
    constructor
    · rintro (hh | ⟨x, hx, hxc⟩)
      · exact ⟨h, by simp, hh⟩
      · exact ⟨x, by simp [hx], hxc⟩
    · rintro ⟨x, hx, hxc⟩
      rcases List.mem_cons.mp hx with rfl | hxt
      · exact Or.inl hxc
      · exact Or.inr ⟨x, hxt, hxc⟩

/-- Characterization of the LiDAR block by the two condition predicates. -/
theorem lidarBlock_eq (ops : MathOps) (mode0 : String) (safe : ℚ) (name : String)
    (lidar : Option (List Vec3)) (vx vy : ℚ) :
    lidarBlock ops mode0 safe name lidar vx vy =
      if obstacleNear ops safe lidar then ⟨"avoid", -1, obstacleSteerY name⟩
      else if lidarSeen lidar then ⟨"explore", vx, vy⟩
      else ⟨mode0, vx, vy⟩ := by
  cases lidar with
  | none => simp [lidarBlock, obstacleNear, lidarSeen]
  | some points =>
    simp only [lidarBlock, obstacleNear, lidarSeen]
    by_cases h1 : 0 < points.length <;>
      by_cases h2 : 0 < (frontPoints points).length <;>
        by_cases h3 :
          listMin ((frontPoints points).map (fun p => ops.sqrt (normSq p))) < safe <;>
      simp [h1, h2, h3]

/-- The peer block leaves the steering alone when the peer condition fails. -/
theorem peerBlock_of_far (ops : MathOps) (safe : ℚ) (cur : Vec3)
    (other : Option Vec3) (s : Steer)
    (h : peerClose ops safe cur other = false) :
    peerBlock ops safe cur other s = s := by
  cases other with
  | none => rfl
  | some op =>
    simp only [peerClose, decide_eq_false_iff_not, not_lt] at h
    simp only [peerBlock]
    rw [if_neg (not_lt.mpr h)]

/-- The peer block overwrites mode and steering when the peer condition holds. -/
theorem peerBlock_of_close (ops : MathOps) (safe : ℚ) (cur op : Vec3) (s : Steer)
    (h : peerClose ops safe cur (some op) = true) :
    peerBlock ops safe cur (some op) s =
      ⟨"avoid", (peerAvoidVec ops cur op).1, (peerAvoidVec ops cur op).2⟩ := by
  simp only [peerClose, decide_eq_true_eq] at h
  simp only [peerBlock]
  rw [if_pos h]

/-- The mode coming out of the LiDAR block is the entry mode, "avoid" or
    "explore". -/
theorem lidarBlock_mode (ops : MathOps) (mode0 : String) (safe : ℚ) (name : String)
    (lidar : Option (List Vec3)) (vx vy : ℚ) :
    (lidarBlock ops mode0 safe name lidar vx vy).mode = mode0 ∨
      (lidarBlock ops mode0 safe name lidar vx vy).mode = "avoid" ∨
      (lidarBlock ops mode0 safe name lidar vx vy).mode = "explore" := by
  rw [lidarBlock_eq]
  split_ifs <;> simp

/-- The mode coming out of the peer block is the entry mode or "avoid". -/
theorem peerBlock_mode (ops : MathOps) (safe : ℚ) (cur : Vec3)
    (other : Option Vec3) (s : Steer) :
    (peerBlock ops safe cur other s).mode = s.mode ∨
      (peerBlock ops safe cur other s).mode = "avoid" := by
  cases other with
  | none => simp [peerBlock]
  | some op =>
    simp only [peerBlock]
    split_ifs <;> simp

/-- Projection: the velocity command emitted by `computeControl`. -/
theorem computeControl_velocity (ops : MathOps) (st : CtrlState) (sd : SensorData)
    (messages : List Msg) :
    (computeControl ops st sd messages).commands.velocity =
      some ⟨npClip (exploreBlock ops st.timestep
              (peerBlock ops st.safe_distance sd.telemetry.position
                (updateOtherPos st.other_drone_position messages)
                (lidarBlock ops st.mode st.safe_distance st.drone_name sd.lidar 0 0))).vx
              (-3) 3,
            npClip (exploreBlock ops st.timestep
              (peerBlock ops st.safe_distance sd.telemetry.position
                (updateOtherPos st.other_drone_position messages)
                (lidarBlock ops st.mode st.safe_distance st.drone_name sd.lidar 0 0))).vy
              (-3) 3,
            npClip (npClip ((st.target_altitude - sd.telemetry.position.z) * (1 / 2)) (-2) 2)
              (-2) 2⟩ := rfl

/-- Projection: the mode stored back by `computeControl` is the mode coming
    out of the peer block. -/
theorem computeControl_mode (ops : MathOps) (st : CtrlState) (sd : SensorData)
    (messages : List Msg) :
    (computeControl ops st sd messages).state.mode =
      (peerBlock ops st.safe_distance sd.telemetry.position
        (updateOtherPos st.other_drone_position messages)
        (lidarBlock ops st.mode st.safe_distance st.drone_name sd.lidar 0 0)).mode := rfl

/-- The mode stored back by `computeControl` is the previous mode, "avoid" or
    "explore". -/
theorem computeControl_mode_cases (ops : MathOps) (st : CtrlState) (sd : SensorData)
    (messages : List Msg) :
    (computeControl ops st sd messages).state.mode = st.mode ∨
      (computeControl ops st sd messages).state.mode = "avoid" ∨
      (computeControl ops st sd messages).state.mode = "explore" := by
  rw [computeControl_mode]
  rcases peerBlock_mode ops st.safe_distance sd.telemetry.position
      (updateOtherPos st.other_drone_position messages)
      (lidarBlock ops st.mode st.safe_distance st.drone_name sd.lidar 0 0) with h | h
  · rw [h]
    exact lidarBlock_mode ops st.mode st.safe_distance st.drone_name sd.lidar 0 0
  · exact Or.inr (Or.inl h)

/-! Claim theorems. -/

/-- C1: for every policy evaluation, whatever the magnitudes of the upstream
    steering and altitude-correction terms (here: arbitrary `MathOps`, state,
    frame and messages), each component of the emitted velocity command lies
    within the fixed safety envelope: x and y in `[-3, 3]` and z in `[-2, 2]`
    (sample_controller.py lines 89-98). -/
theorem C1_velocity_safety_envelope (ops : MathOps) (st : CtrlState) (sd : SensorData)
    (messages : List Msg) :
    ∃ v : Vec3, (computeControl ops st sd messages).commands.velocity = some v ∧
      -3 ≤ v.x ∧ v.x ≤ 3 ∧ -3 ≤ v.y ∧ v.y ≤ 3 ∧ -2 ≤ v.z ∧ v.z ≤ 2 := by
  refine ⟨_, computeControl_velocity ops st sd messages, ?_, ?_, ?_, ?_, ?_, ?_⟩ <;>
    first
      | exact lo_le_npClip _ _ _ (by norm_num)
      | exact npClip_le_hi _ _ _ (by norm_num)

/-- C8: in every emitted command the z velocity component equals the
    proportional altitude controller `clip((target_altitude - z) * 0.5, -2, 2)`
    (sample_controller.py lines 30-32 and 92) — an expression in the target
    altitude and current z only, so the AVOID/EXPLORE branches (which only
    touch vx, vy) never change it. -/
theorem C8_vertical_axis_from_altitude_controller (ops : MathOps) (st : CtrlState)
    (sd : SensorData) (messages : List Msg) :
    ∃ v : Vec3, (computeControl ops st sd messages).commands.velocity = some v ∧
      v.z = npClip ((st.target_altitude - sd.telemetry.position.z) * (1 / 2)) (-2) 2 := by
  refine ⟨_, computeControl_velocity ops st sd messages, ?_⟩
  exact npClip_npClip _ _ _ (by norm_num)

/-- C9: `compute_control` always returns a dict holding a `"velocity"` entry
    and never a `"position"` entry; the dict is nonempty, so the
    `if control_commands:` guard of `control_loop` is always taken and
    `execute_control` always issues the velocity call
    (sample_controller.py lines 20, 94-98; base_controller.py 376-408). -/
theorem C9_always_velocity_never_position (ops : MathOps) (st : CtrlState)
    (sd : SensorData) (messages : List Msg) :
    (computeControl ops st sd messages).commands.position = none ∧
    (computeControl ops st sd messages).commands.nonempty = true ∧
    ∃ v : Vec3, (computeControl ops st sd messages).commands.velocity = some v ∧
      controlLoopDispatch (computeControl ops st sd messages).commands =
        some (ExecAction.moveByVelocity v (1 / 10)) := by
  refine ⟨rfl, ?_, ⟨_, computeControl_velocity ops st sd messages, ?_⟩⟩
  · simp [ControlCommands.nonempty, computeControl_velocity]
  · simp [controlLoopDispatch, executeControl, ControlCommands.nonempty,
      computeControl_velocity ops st sd messages]

/-- C10: the mode starts as `"hover"` (`__init__`, sample_controller.py line
    13); every `compute_control` call leaves the mode unchanged or sets it to
    `"avoid"`/`"explore"` (lines 47-64), so the mode stays in the documented
    set and once it leaves `"hover"` it never returns to it. -/
theorem C10_hover_never_reentered (n dd : String) (cp : Bool) (ta sa : ℚ)
    (ops : MathOps) (st : CtrlState) (sd : SensorData) (messages : List Msg) :
    (initCtrlState n dd cp ta sa).mode = "hover" ∧
    ((computeControl ops st sd messages).state.mode = st.mode ∨
      (computeControl ops st sd messages).state.mode = "avoid" ∨
      (computeControl ops st sd messages).state.mode = "explore") ∧
    (st.mode ≠ "hover" → (computeControl ops st sd messages).state.mode ≠ "hover") ∧
    ((st.mode = "hover" ∨ st.mode = "explore" ∨ st.mode = "avoid") →
      ((computeControl ops st sd messages).state.mode = "hover" ∨
        (computeControl ops st sd messages).state.mode = "explore" ∨
        (computeControl ops st sd messages).state.mode = "avoid")) := by
  refine ⟨rfl, computeControl_mode_cases ops st sd messages, ?_, ?_⟩
  · intro hmode
    rcases computeControl_mode_cases ops st sd messages with h | h | h <;> rw [h]
    · exact hmode
    · decide
    · decide
  · intro _
    rcases computeControl_mode_cases ops st sd messages with h | h | h <;> rw [h]
    · tauto
    · tauto
    · tauto

/-- Witness for C10: at a concrete EXPLORE-mode input with no LiDAR and no
    peer, the hypotheses `mode ≠ "hover"` and `mode ∈ {hover, explore, avoid}`
    hold, and the theorem yields that the next mode is not `"hover"` and still
    lies in the documented set. -/
theorem C10_hover_never_reentered_witness :
    ("explore" : String) ≠ "hover" ∧
    (computeControl opsId stExplore sdNoLidar []).state.mode ≠ "hover" ∧
    ((computeControl opsId stExplore sdNoLidar []).state.mode = "hover" ∨
      (computeControl opsId stExplore sdNoLidar []).state.mode = "explore" ∨
      (computeControl opsId stExplore sdNoLidar []).state.mode = "avoid") :=
  ⟨by decide,
    (C10_hover_never_reentered "Drone1" "./data" false (-10) 5 opsId stExplore
        sdNoLidar []).2.2.1 (by decide),
    (C10_hover_never_reentered "Drone1" "./data" false (-10) 5 opsId stExplore
        sdNoLidar []).2.2.2 (by decide)⟩

theorem normSq_nonneg (p : Vec3) : 0 ≤ normSq p := by
  unfold normSq
  positivity

/-- Failing the presence guards means the full obstacle condition fails too. -/
theorem obstacleNear_of_not_seen (ops : MathOps) (safe : ℚ)
    (lidar : Option (List Vec3)) (h : lidarSeen lidar = false) :
    obstacleNear ops safe lidar = false := by
  cases lidar with
  | none => rfl
  | some points =>
    simp only [lidarSeen, Bool.and_eq_false_iff, decide_eq_false_iff_not] at h
    simp only [obstacleNear, Bool.and_eq_false_iff, decide_eq_false_iff_not]
    tauto

/-- Dict lookup after an in-place update of key `k`. -/
theorem lookupEp_updateEp (f : Endpoint → Endpoint) (s : BridgeState) (k n : String) :
    lookupEp (updateEp f s k) n =
      if n = k then Option.map f (lookupEp s k) else lookupEp s n := by
  induction s with
  | nil => simp [lookupEp, updateEp]
  | cons e rest ih =>
    obtain ⟨m, ep⟩ := e
    simp only [updateEp]
    by_cases hmk : m = k
    · rw [if_pos hmk]
      simp only [lookupEp]
      by_cases hmn : m = n
      · have hnk : n = k := hmn.symm.trans hmk
        rw [if_pos hmn, if_pos hnk, if_pos hmk]
        rfl
      · have hnk : ¬n = k := fun h => hmn (hmk.trans h.symm)
        rw [if_neg hmn, if_neg hnk, if_neg hmn]
    · rw [if_neg hmk]
      simp only [lookupEp, ih]
      by_cases hmn : m = n
      · have hnk : ¬n = k := fun h => hmk (hmn.trans h)
        rw [if_pos hmn, if_neg hnk, if_pos hmn]
      · rw [if_neg hmn]
        by_cases hnk : n = k
        · rw [if_pos hnk, if_pos hnk, if_neg hmk]
        · rw [if_neg hnk, if_neg hnk, if_neg hmn]

/-- Updating the pending-messages side of any entry leaves every entry's
    forwarded-messages side unchanged. -/
theorem lookup_consume_fromBridge (l : List String) (s : BridgeState) (k n : String) :
    (lookupEp (updateEp (fun e => { e with toBridge := l }) s k) n).map Endpoint.fromBridge =
      (lookupEp s n).map Endpoint.fromBridge := by
  rw [lookupEp_updateEp]
  split_ifs with h
  · subst h
    cases lookupEp s n <;> rfl
  · rfl

/-- In-place updates do not change which keys are present. -/
theorem lookup_updateEp_isSome (f : Endpoint → Endpoint) (s : BridgeState) (k n : String) :
    (lookupEp (updateEp f s k) n).isSome = (lookupEp s n).isSome := by
  rw [lookupEp_updateEp]
  split_ifs with h
  · subst h
    cases lookupEp s n <;> rfl
  · rfl

/-- C2: when the router processes a pending envelope that decodes to recipient
    `env.recipient`, no exception is raised; if that recipient is a registered
    key of `pipes`, the raw message is appended unmodified to that recipient's
    (and only that recipient's) forwarded queue; if it is not registered, the
    envelope is dropped and every forwarded queue is left unchanged
    (communication_bridge.py lines 59-62). -/
theorem C2_router_delivery (decode : String → Option Envelope) (s : BridgeState)
    (name : String) (ep : Endpoint) (message : String) (rest : List String)
    (env : Envelope)
    (hlook : lookupEp s name = some ep)
    (hq : ep.toBridge = message :: rest)
    (hdec : decode message = some env) :
    (processEndpoint decode s name).2 = false ∧
    ((lookupEp s env.recipient).isSome = true →
      (lookupEp (processEndpoint decode s name).1 env.recipient).map Endpoint.fromBridge =
        (lookupEp s env.recipient).map (fun e => e.fromBridge ++ [message]) ∧
      ∀ n, n ≠ env.recipient →
        (lookupEp (processEndpoint decode s name).1 n).map Endpoint.fromBridge =
          (lookupEp s n).map Endpoint.fromBridge) ∧
    ((lookupEp s env.recipient).isSome = false →
      ∀ n, (lookupEp (processEndpoint decode s name).1 n).map Endpoint.fromBridge =
        (lookupEp s n).map Endpoint.fromBridge) := by
  have hbase :
      ∀ n, (lookupEp (updateEp (fun e => { e with toBridge := rest }) s name) n).map
          Endpoint.fromBridge = (lookupEp s n).map Endpoint.fromBridge :=
    fun n => lookup_consume_fromBridge rest s name n
  have hsome :
      ∀ n, (lookupEp (updateEp (fun e => { e with toBridge := rest }) s name) n).isSome =
        (lookupEp s n).isSome :=
    fun n => lookup_updateEp_isSome _ s name n
  simp only [processEndpoint, hlook, hq, hdec]
  rcases h2 : lookupEp (updateEp (fun e => { e with toBridge := rest }) s name)
      env.recipient with - | ep2 <;> simp only [h2]
  · refine ⟨trivial, ?_, ?_⟩
    · intro habs
      rw [← hsome env.recipient, h2] at habs
      simp at habs
    · intro _ n
      exact hbase n
  · refine ⟨trivial, ?_, ?_⟩
    · intro _
      constructor
      · rw [lookupEp_updateEp, if_pos rfl, h2]
        have := hbase env.recipient
        rw [h2] at this
        cases hrec : lookupEp s env.recipient with
        | none => rw [hrec] at this; simp at this
        | some ep3 =>
          rw [hrec] at this
          simp only [Option.map_some'] at this ⊢
          rw [Option.some.inj this]
      · intro n hn
        rw [lookupEp_updateEp, if_neg hn]
        exact hbase n
    · intro habs
      rw [← hsome env.recipient, h2] at habs
      simp at habs

/-- Witness for C2: a concrete two-endpoint registry in which endpoint `A`
    holds one pending well-formed packet addressed to `C`; processing `A`
    raises nothing and appends the raw packet to `C`'s forwarded queue. -/
theorem C2_router_delivery_witness :
    (processEndpoint exDecode [("A", ⟨["pkt_ac"], []⟩), ("C", ⟨[], []⟩)] "A").2 = false ∧
    (lookupEp (processEndpoint exDecode
        [("A", ⟨["pkt_ac"], []⟩), ("C", ⟨[], []⟩)] "A").1 "C").map Endpoint.fromBridge =
      some ["pkt_ac"] :=
  ⟨(C2_router_delivery exDecode [("A", ⟨["pkt_ac"], []⟩), ("C", ⟨[], []⟩)] "A"
      ⟨["pkt_ac"], []⟩ "pkt_ac" [] ⟨"A", "C"⟩ (by decide) rfl (by decide)).1,
    by
      have h := ((C2_router_delivery exDecode [("A", ⟨["pkt_ac"], []⟩), ("C", ⟨[], []⟩)]
        "A" ⟨["pkt_ac"], []⟩ "pkt_ac" [] ⟨"A", "C"⟩ (by decide) rfl
        (by decide)).2.1 (by decide)).1
      rw [h]
      decide⟩

/-- Every single enqueue performed by the control loop succeeds immediately
    and appends the complete frame, because the queue of line 37 is unbounded. -/
theorem controlLoopEnqueue_total (q : List PersistFrame) (f : PersistFrame) :
    controlLoopEnqueue q f = some (q ++ [f]) := by
  simp [controlLoopEnqueue, queuePut, sensorQueueMaxsize]

theorem enqueueFrom_eq (frames : List PersistFrame) :
    ∀ q, enqueueFrom q frames = some (q ++ frames) := by
  induction frames with
  | nil => intro q; simp [enqueueFrom]
  | cons f rest ih =>
    intro q
    rw [enqueueFrom, controlLoopEnqueue_total]
    show enqueueFrom (q ++ [f]) rest = some (q ++ f :: rest)
    rw [ih (q ++ [f])]
    simp

theorem enqueueAll_eq (frames : List PersistFrame) : enqueueAll frames = some frames := by
  rw [enqueueAll, enqueueFrom_eq]
  simp

/-- C6 counterexample: the persistence queue is not bounded — no bound `B`
    caps the length the queue can reach through the control loop's enqueues
    (the queue of base_controller.py line 37 is `queue.Queue()`, i.e.
    `maxsize=0`, unbounded), so the claimed bounded-queue/tiered-drop
    backpressure policy does not exist in the code. -/
theorem C6_bounded_queue_counterexample :
    ¬ ∃ B : ℕ, ∀ frames : List PersistFrame, ∀ q,
      enqueueAll frames = some q → q.length ≤ B := by
  rintro ⟨B, hB⟩
  have h := hB (List.replicate (B + 1) blankFrame) (List.replicate (B + 1) blankFrame)
    (enqueueAll_eq _)
  simp only [List.length_replicate] at h
  omega

/-- C6 amended: the persistence queue is created unbounded (`maxsize = 0`) and
    `control_loop`'s enqueue therefore always succeeds immediately, appending
    the entire frame — telemetry is indeed never lost and the loop never
    blocks on enqueue, but not via the claimed bounded queue, bounded wait and
    imagery/point-cloud tiered drop: nothing is ever dropped or waited for
    (base_controller.py lines 37 and 370). -/
theorem C6_enqueue_always_whole_frame (q : List PersistFrame) (f : PersistFrame) :
    sensorQueueMaxsize = 0 ∧ controlLoopEnqueue q f = some (q ++ [f]) :=
  ⟨rfl, controlLoopEnqueue_total q f⟩

/-- C7 amended: with three registered endpoints A, B, C each holding one
    pending envelope, where A's decodes (addressed to C), B's raises on decode
    and C's decodes (addressed to A): the first poll pass delivers A's
    envelope, consumes B's malformed one and aborts on the caught exception
    without touching C; the bridge keeps running and the next pass delivers
    C's pending envelope.  So a malformed envelope never halts routing, but
    endpoints after the faulty one are served only in the following pass, not
    in the same one (communication_bridge.py lines 43-69). -/
theorem C7_exception_skips_rest_of_pass (decode : String → Option Envelope)
    (s0 : BridgeState) (mA mB mC : String) (envA envC : Envelope)
    (hs : s0 = [("A", ⟨[mA], []⟩), ("B", ⟨[mB], []⟩), ("C", ⟨[mC], []⟩)])
    (hA : decode mA = some envA) (hArec : envA.recipient = "C")
    (hB : decode mB = none)
    (hC : decode mC = some envC) (hCrec : envC.recipient = "A") :
    (bridgePass decode s0).2 = true ∧
    (bridgePass decode s0).1 =
      [("A", ⟨[], []⟩), ("B", ⟨[], []⟩), ("C", ⟨[mC], [mA]⟩)] ∧
    (bridgePass decode (bridgePass decode s0).1).2 = false ∧
    (bridgePass decode (bridgePass decode s0).1).1 =
      [("A", ⟨[], [mC]⟩), ("B", ⟨[], []⟩), ("C", ⟨[], [mA]⟩)] := by
  subst hs
  simp [bridgePass, passLoop, processEndpoint, lookupEp, updateEp,
    hA, hArec, hB, hC, hCrec]

/-- Witness for C7 at a fully concrete decode function and packets. -/
theorem C7_exception_skips_rest_of_pass_witness :
    (bridgePass exDecode
      [("A", ⟨["pkt_ac"], []⟩), ("B", ⟨["garbled"], []⟩), ("C", ⟨["pkt_ca"], []⟩)]).2
        = true ∧
    (bridgePass exDecode (bridgePass exDecode
      [("A", ⟨["pkt_ac"], []⟩), ("B", ⟨["garbled"], []⟩), ("C", ⟨["pkt_ca"], []⟩)]).1).1 =
      [("A", ⟨[], ["pkt_ca"]⟩), ("B", ⟨[], []⟩), ("C", ⟨[], ["pkt_ac"]⟩)] :=
  ⟨(C7_exception_skips_rest_of_pass exDecode _ "pkt_ac" "garbled" "pkt_ca"
      ⟨"A", "C"⟩ ⟨"C", "A"⟩ rfl (by decide) rfl (by decide) (by decide) rfl).1,
    (C7_exception_skips_rest_of_pass exDecode _ "pkt_ac" "garbled" "pkt_ca"
      ⟨"A", "C"⟩ ⟨"C", "A"⟩ rfl (by decide) rfl (by decide) (by decide) rfl).2.2.2⟩

/-- C7 counterexample: endpoint A's pending envelope is malformed and endpoint
    B holds a well-formed envelope addressed to A; in that same poll pass B's
    envelope is neither processed nor delivered (it is still pending and A's
    forwarded queue is empty when the pass ends), because the `try` block
    wraps the whole `for` loop and the exception abandons the rest of the
    pass — contradicting delivery "in that same poll pass". -/
theorem C7_same_pass_counterexample :
    exDecode "garbled" = none ∧
    exDecode "pkt_ba" = some ⟨"B", "A"⟩ ∧
    (bridgePass exDecode [("A", ⟨["garbled"], []⟩), ("B", ⟨["pkt_ba"], []⟩)]).2 = true ∧
    (bridgePass exDecode [("A", ⟨["garbled"], []⟩), ("B", ⟨["pkt_ba"], []⟩)]).1 =
      [("A", ⟨[], []⟩), ("B", ⟨["pkt_ba"], []⟩)] := by decide

/-- C4 amended: the policy is deterministic in the full object state it
    reads — two invocations with identical frame, messages, and state fields
    `drone_name`, `target_altitude`, `safe_distance`, `other_drone_position`,
    `mode`, `timestep` return identical commands, next mode and updated peer
    position (and, when pipe presence also agrees, identical outbound
    messages), whatever the remaining fields (`data_dir`, pipe presence).
    The original claim fails because the policy also reads
    `other_drone_position` and `timestep` (beyond frame/messages/mode/config)
    and has side effects (field mutation, periodic sends). -/
theorem C4_deterministic_in_full_state (ops : MathOps) (st1 st2 : CtrlState)
    (sd : SensorData) (messages : List Msg)
    (hname : st1.drone_name = st2.drone_name)
    (hta : st1.target_altitude = st2.target_altitude)
    (hsafe : st1.safe_distance = st2.safe_distance)
    (hother : st1.other_drone_position = st2.other_drone_position)
    (hmode : st1.mode = st2.mode)
    (hts : st1.timestep = st2.timestep) :
    (computeControl ops st1 sd messages).commands =
      (computeControl ops st2 sd messages).commands ∧
    (computeControl ops st1 sd messages).state.mode =
      (computeControl ops st2 sd messages).state.mode ∧
    (computeControl ops st1 sd messages).state.other_drone_position =
      (computeControl ops st2 sd messages).state.other_drone_position ∧
    (st1.has_comm_pipe = st2.has_comm_pipe →
      (computeControl ops st1 sd messages).sent =
        (computeControl ops st2 sd messages).sent) := by
  obtain ⟨n1, d1, p1, t1, s1, o1, m1, k1⟩ := st1
  obtain ⟨n2, d2, p2, t2, s2, o2, m2, k2⟩ := st2
  dsimp only at hname hta hsafe hother hmode hts
  subst hname hta hsafe hother hmode hts
  refine ⟨rfl, rfl, rfl, ?_⟩
  intro hp
  dsimp only at hp
  subst hp
  rfl

/-- Witness for C4 amended: two states differing only in `data_dir` produce
    the same command. -/
theorem C4_deterministic_in_full_state_witness :
    (computeControl opsId stHoverPeerNear sdNoLidar []).commands =
      (computeControl opsId stHoverPeerNearAltDir sdNoLidar []).commands :=
  (C4_deterministic_in_full_state opsId stHoverPeerNear stHoverPeerNearAltDir
    sdNoLidar [] rfl rfl rfl rfl rfl rfl).1

/-- C4 counterexample: two invocations with identical sensor frame (no
    LiDAR), identical (empty) message list, identical prior mode `"hover"`
    and identical configuration (name, data dir, pipe presence, target
    altitude, safe distance) — differing only in the persistent field
    `other_drone_position` (unset vs. a peer 1 unit away, where `opsId.sqrt`
    agrees with the real square root on the only evaluated argument `1`) —
    return different velocity commands and different next modes.  The policy
    is therefore not a pure function of (frame, messages, mode, config). -/
theorem C4_purity_counterexample :
    stHover.mode = stHoverPeerNear.mode ∧
    stHover.drone_name = stHoverPeerNear.drone_name ∧
    stHover.data_dir = stHoverPeerNear.data_dir ∧
    stHover.has_comm_pipe = stHoverPeerNear.has_comm_pipe ∧
    stHover.target_altitude = stHoverPeerNear.target_altitude ∧
    stHover.safe_distance = stHoverPeerNear.safe_distance ∧
    opsId.sqrt 1 = 1 ∧
    (computeControl opsId stHover sdNoLidar []).commands.velocity = some ⟨0, 0, 0⟩ ∧
    (computeControl opsId stHoverPeerNear sdNoLidar []).commands.velocity =
      some ⟨-2, 0, 0⟩ ∧
    (computeControl opsId stHover sdNoLidar []).commands ≠
      (computeControl opsId stHoverPeerNear sdNoLidar []).commands ∧
    (computeControl opsId stHover sdNoLidar []).state.mode ≠
      (computeControl opsId stHoverPeerNear sdNoLidar []).state.mode := by
  have hv1 : (computeControl opsId stHover sdNoLidar []).commands.velocity =
      some ⟨0, 0, 0⟩ := by
    simp [computeControl, lidarBlock, peerBlock, exploreBlock, updateOtherPos,
      stHover, sdNoLidar, opsId]
    norm_num [npClip]
  have hv2 : (computeControl opsId stHoverPeerNear sdNoLidar []).commands.velocity =
      some ⟨-2, 0, 0⟩ := by
    simp [computeControl, lidarBlock, peerBlock, peerAvoidVec, exploreBlock,
      updateOtherPos, stHoverPeerNear, stHover, sdNoLidar, opsId]
    norm_num [npClip]
    simp
    norm_num [npClip]
  have hm1 : (computeControl opsId stHover sdNoLidar []).state.mode = "hover" := by
    simp [computeControl, lidarBlock, peerBlock, updateOtherPos,
      stHover, sdNoLidar, opsId]
  have hm2 : (computeControl opsId stHoverPeerNear sdNoLidar []).state.mode =
      "avoid" := by
    simp [computeControl, lidarBlock, peerBlock, updateOtherPos,
      stHoverPeerNear, stHover, sdNoLidar, opsId]
    norm_num
  refine ⟨rfl, rfl, rfl, rfl, rfl, rfl, rfl, hv1, hv2, ?_, ?_⟩
  · intro heq
    rw [congrArg ControlCommands.velocity heq, hv2] at hv1
    simp only [Option.some.injEq, Vec3.mk.injEq] at hv1
    norm_num at hv1
  · intro heq
    rw [heq, hm2] at hm1
    exact absurd hm1 (by decide)

/-- The exploration block leaves the steering alone in any other mode. -/
theorem exploreBlock_of_ne (ops : MathOps) (ts : ℕ) (s : Steer)
    (h : s.mode ≠ "explore") : exploreBlock ops ts s = s := by
  simp [exploreBlock, h]

theorem npClip_neg_one : npClip (-1) (-3) 3 = -1 := by norm_num [npClip]

theorem npClip_obstacleSteerY (n : String) :
    npClip (obstacleSteerY n) (-3) 3 = obstacleSteerY n := by
  unfold obstacleSteerY
  split_ifs <;> norm_num [npClip]

/-- Transfer of the code's threshold comparison (minimum over `sqrt` of the
    squared norms) to the exact-real form (minimum squared norm against the
    squared threshold), given that `sqrt` orders correctly against the
    threshold — as the real square root does on nonnegative arguments. -/
theorem sqrtMin_lt_iff (ops : MathOps) (safe : ℚ) (l : List Vec3) (hne : l ≠ [])
    (hsqrt : ∀ q : ℚ, 0 ≤ q → (ops.sqrt q < safe ↔ q < safe ^ 2)) :
    listMin (l.map fun p => ops.sqrt (normSq p)) < safe ↔
      listMin (l.map normSq) < safe ^ 2 := by
  rw [listMin_lt_iff _ _ (by simpa using hne), listMin_lt_iff _ _ (by simpa using hne)]
  constructor
  · rintro ⟨x, hx, hxs⟩
    rcases List.mem_map.mp hx with ⟨p, hp, rfl⟩
    exact ⟨normSq p, List.mem_map.mpr ⟨p, hp, rfl⟩, (hsqrt _ (normSq_nonneg p)).mp hxs⟩
  · rintro ⟨x, hx, hxs⟩
    rcases List.mem_map.mp hx with ⟨p, hp, rfl⟩
    exact ⟨ops.sqrt (normSq p), List.mem_map.mpr ⟨p, hp, rfl⟩,
      (hsqrt _ (normSq_nonneg p)).mpr hxs⟩

/-- C5 amended: whenever the point cloud has forward-hemisphere points whose
    minimum squared norm is below `safe_distance²` (the exact-real reading of
    "nearest forward point closer than `safe_distance`", transported to the
    code's comparison by `hsqrt`) and the peer-avoidance condition does not
    also fire, the policy sets mode to AVOID and emits the fixed steering
    `(-1, ±1)`: its x component is `-1 < 0` while every forward point has
    positive x, so it points backward, against the obstacle's forward bearing.
    The original claim fails without the no-peer proviso (see the
    counterexample) and the steering is this fixed vector, not a function of
    the obstacle's bearing. -/
theorem C5_obstacle_triggers_avoid (ops : MathOps) (st : CtrlState) (sd : SensorData)
    (messages : List Msg) (points : List Vec3)
    (hlidar : sd.lidar = some points)
    (hfront : frontPoints points ≠ [])
    (hnear : listMin ((frontPoints points).map normSq) < st.safe_distance ^ 2)
    (hsqrt : ∀ q : ℚ, 0 ≤ q → (ops.sqrt q < st.safe_distance ↔ q < st.safe_distance ^ 2))
    (hpeer : peerClose ops st.safe_distance sd.telemetry.position
      (updateOtherPos st.other_drone_position messages) = false) :
    (computeControl ops st sd messages).state.mode = "avoid" ∧
    (∀ p ∈ frontPoints points, 0 < p.x) ∧
    ∃ v : Vec3, (computeControl ops st sd messages).commands.velocity = some v ∧
      v.x = -1 ∧ v.y = obstacleSteerY st.drone_name ∧ v.x < 0 := by
  have hob : obstacleNear ops st.safe_distance sd.lidar = true := by
    rw [hlidar]
    simp only [obstacleNear, Bool.and_eq_true, decide_eq_true_eq]
    refine ⟨⟨?_, ?_⟩, ?_⟩
    · have hp : points ≠ [] := by
        intro h
        exact hfront (by simp [frontPoints, h])
      exact List.length_pos.mpr hp
    · exact List.length_pos.mpr hfront
    · exact (sqrtMin_lt_iff ops st.safe_distance (frontPoints points) hfront hsqrt).mpr
        hnear
  have hlb : lidarBlock ops st.mode st.safe_distance st.drone_name sd.lidar 0 0 =
      ⟨"avoid", -1, obstacleSteerY st.drone_name⟩ := by
    rw [lidarBlock_eq, if_pos hob]
  have hpb : peerBlock ops st.safe_distance sd.telemetry.position
      (updateOtherPos st.other_drone_position messages)
      (lidarBlock ops st.mode st.safe_distance st.drone_name sd.lidar 0 0) =
      lidarBlock ops st.mode st.safe_distance st.drone_name sd.lidar 0 0 :=
    peerBlock_of_far _ _ _ _ _ hpeer
  refine ⟨?_, ?_, ?_⟩
  · rw [computeControl_mode, hpb, hlb]
  · intro p hp
    exact of_decide_eq_true (List.mem_filter.mp hp).2
  · have hv := computeControl_velocity ops st sd messages
    rw [hpb, hlb, exploreBlock_of_ne ops st.timestep
      ⟨"avoid", -1, obstacleSteerY st.drone_name⟩ (by simp)] at hv
    refine ⟨_, hv, ?_, ?_, ?_⟩
    · exact npClip_neg_one
    · exact npClip_obstacleSteerY st.drone_name
    · rw [show (⟨"avoid", -1, obstacleSteerY st.drone_name⟩ : Steer).vx = -1 from rfl,
        npClip_neg_one]
      norm_num

/-- Witness for C5: one forward point 2 units ahead, `safe_distance = 5`, no
    known peer, and a `sqrt` satisfying the threshold ordering; the theorem
    yields AVOID and the backward fixed steering. -/
theorem C5_obstacle_triggers_avoid_witness :
    (computeControl opsDivFive stHover sdObstacle []).state.mode = "avoid" ∧
    ∃ v : Vec3, (computeControl opsDivFive stHover sdObstacle []).commands.velocity =
      some v ∧ v.x = -1 ∧ v.y = obstacleSteerY stHover.drone_name ∧ v.x < 0 :=
  ⟨(C5_obstacle_triggers_avoid opsDivFive stHover sdObstacle [] [⟨2, 0, 0⟩] rfl
      (by decide)
      (by norm_num [frontPoints, List.filter, listMin, normSq, stHover])
      (by intro q hq; constructor <;> (intro h; norm_num [opsDivFive, stHover] at h ⊢) <;>
        linarith)
      (by norm_num [peerClose, updateOtherPos, stHover])).1,
    (C5_obstacle_triggers_avoid opsDivFive stHover sdObstacle [] [⟨2, 0, 0⟩] rfl
      (by decide)
      (by norm_num [frontPoints, List.filter, listMin, normSq, stHover])
      (by intro q hq; constructor <;> (intro h; norm_num [opsDivFive, stHover] at h ⊢) <;>
        linarith)
      (by norm_num [peerClose, updateOtherPos, stHover])).2.2⟩

/-- C5 counterexample: the same forward obstacle 2 units ahead with
    `safe_distance = 5` (trigger holds, `exOps.sqrt` agreeing with the real
    square root at the two evaluated arguments 4 and 9), but a known peer 3
    units behind: the emitted steering is `(2, 0)` — its dominant component
    `+2` points along `+x`, toward the forward obstacle's bearing, not
    opposite it, because the peer rule overrode the obstacle steering. -/
theorem C5_steering_counterexample :
    listMin ((frontPoints [⟨2, 0, 0⟩]).map normSq) < stPeerBehind.safe_distance ^ 2 ∧
    sdObstacle.lidar = some [⟨2, 0, 0⟩] ∧
    exOps.sqrt 4 = 2 ∧ exOps.sqrt 9 = 3 ∧
    (computeControl exOps stPeerBehind sdObstacle []).state.mode = "avoid" ∧
    (computeControl exOps stPeerBehind sdObstacle []).commands.velocity =
      some ⟨2, 0, 0⟩ ∧
    ¬((2 : ℚ) < 0) := by
  refine ⟨?_, rfl, ?_, ?_, ?_, ?_, by norm_num⟩
  · norm_num [frontPoints, List.filter, listMin, normSq, stPeerBehind, stHover]
  · norm_num [exOps]
  · norm_num [exOps]
  · simp [computeControl, lidarBlock, peerBlock, peerAvoidVec, exploreBlock,
      updateOtherPos, stPeerBehind, stHover, sdObstacle, exOps, frontPoints,
      List.filter, listMin, normSq]
    norm_num
  · simp [computeControl, lidarBlock, peerBlock, peerAvoidVec, exploreBlock,
      updateOtherPos, stPeerBehind, stHover, sdObstacle, exOps, frontPoints,
      List.filter, listMin, normSq]
    norm_num [npClip]
    simp
    norm_num [npClip]

/-- C3 amended: the transition rules are applied in source order with the
    *later* peer rule overriding, not priority order with first match winning:
    (1) whenever the peer condition fires, the mode is AVOID with the
    peer-avoidance steering, even if the obstacle rule also matched;
    (2) the obstacle rule decides (AVOID, fixed steering) only when the peer
    rule does not fire; (3) EXPLORE with the time-parameterized pattern arises
    when LiDAR is present with forward points, the obstacle is far and no peer
    is close; (4) when neither LiDAR rule is reachable (no/empty point cloud
    or no forward points) and no peer is close, the mode is *retained* from
    the previous tick — not reset to EXPLORE — and the pattern is emitted only
    if the retained mode already was EXPLORE (sample_controller.py 37-76). -/
theorem C3_rule_order_amended (ops : MathOps) (st : CtrlState) (sd : SensorData)
    (messages : List Msg) :
    (peerClose ops st.safe_distance sd.telemetry.position
        (updateOtherPos st.other_drone_position messages) = true →
      (computeControl ops st sd messages).state.mode = "avoid" ∧
      ∃ op, updateOtherPos st.other_drone_position messages = some op ∧
        ∃ v : Vec3, (computeControl ops st sd messages).commands.velocity = some v ∧
          v.x = npClip (peerAvoidVec ops sd.telemetry.position op).1 (-3) 3 ∧
          v.y = npClip (peerAvoidVec ops sd.telemetry.position op).2 (-3) 3) ∧
    (peerClose ops st.safe_distance sd.telemetry.position
        (updateOtherPos st.other_drone_position messages) = false →
      obstacleNear ops st.safe_distance sd.lidar = true →
      (computeControl ops st sd messages).state.mode = "avoid" ∧
      ∃ v : Vec3, (computeControl ops st sd messages).commands.velocity = some v ∧
        v.x = -1 ∧ v.y = obstacleSteerY st.drone_name) ∧
    (peerClose ops st.safe_distance sd.telemetry.position
        (updateOtherPos st.other_drone_position messages) = false →
      obstacleNear ops st.safe_distance sd.lidar = false →
      lidarSeen sd.lidar = true →
      (computeControl ops st sd messages).state.mode = "explore" ∧
      ∃ v : Vec3, (computeControl ops st sd messages).commands.velocity = some v ∧
        v.x = npClip (patternVec ops st.timestep).1 (-3) 3 ∧
        v.y = npClip (patternVec ops st.timestep).2 (-3) 3) ∧
    (peerClose ops st.safe_distance sd.telemetry.position
        (updateOtherPos st.other_drone_position messages) = false →
      lidarSeen sd.lidar = false →
      (computeControl ops st sd messages).state.mode = st.mode ∧
      (st.mode = "explore" →
        ∃ v : Vec3, (computeControl ops st sd messages).commands.velocity = some v ∧
          v.x = npClip (patternVec ops st.timestep).1 (-3) 3 ∧
          v.y = npClip (patternVec ops st.timestep).2 (-3) 3) ∧
      (st.mode ≠ "explore" →
        ∃ v : Vec3, (computeControl ops st sd messages).commands.velocity = some v ∧
          v.x = 0 ∧ v.y = 0)) := by
  refine ⟨?_, ?_, ?_, ?_⟩
  · intro hp
    rcases ho : updateOtherPos st.other_drone_position messages with - | op
    · rw [ho] at hp
      simp [peerClose] at hp
    · rw [ho] at hp
      have hpb := peerBlock_of_close ops st.safe_distance sd.telemetry.position op
        (lidarBlock ops st.mode st.safe_distance st.drone_name sd.lidar 0 0) hp
      constructor
      · rw [computeControl_mode, ho, hpb]
      · refine ⟨op, rfl, ?_⟩
        have hv := computeControl_velocity ops st sd messages
        rw [ho, hpb, exploreBlock_of_ne ops st.timestep
          ⟨"avoid", (peerAvoidVec ops sd.telemetry.position op).1,
            (peerAvoidVec ops sd.telemetry.position op).2⟩ (by simp)] at hv
        exact ⟨_, hv, rfl, rfl⟩
  · intro hp hob
    have hlb : lidarBlock ops st.mode st.safe_distance st.drone_name sd.lidar 0 0 =
        ⟨"avoid", -1, obstacleSteerY st.drone_name⟩ := by
      rw [lidarBlock_eq, if_pos hob]
    have hpb := peerBlock_of_far ops st.safe_distance sd.telemetry.position
      (updateOtherPos st.other_drone_position messages)
      (lidarBlock ops st.mode st.safe_distance st.drone_name sd.lidar 0 0) hp
    constructor
    · rw [computeControl_mode, hpb, hlb]
    · have hv := computeControl_velocity ops st sd messages
      rw [hpb, hlb, exploreBlock_of_ne ops st.timestep
        ⟨"avoid", -1, obstacleSteerY st.drone_name⟩ (by simp)] at hv
      exact ⟨_, hv, npClip_neg_one, npClip_obstacleSteerY st.drone_name⟩
  · intro hp hob hseen
    have hlb : lidarBlock ops st.mode st.safe_distance st.drone_name sd.lidar 0 0 =
        ⟨"explore", 0, 0⟩ := by
      rw [lidarBlock_eq]
      simp [hob, hseen]
    have hpb := peerBlock_of_far ops st.safe_distance sd.telemetry.position
      (updateOtherPos st.other_drone_position messages)
      (lidarBlock ops st.mode st.safe_distance st.drone_name sd.lidar 0 0) hp
    constructor
    · rw [computeControl_mode, hpb, hlb]
    · have hv := computeControl_velocity ops st sd messages
      rw [hpb, hlb, show exploreBlock ops st.timestep ⟨"explore", 0, 0⟩ =
        ⟨"explore", (patternVec ops st.timestep).1, (patternVec ops st.timestep).2⟩
        from by simp [exploreBlock]] at hv
      exact ⟨_, hv, rfl, rfl⟩
  · intro hp hseen
    have hob := obstacleNear_of_not_seen ops st.safe_distance sd.lidar hseen
    have hlb : lidarBlock ops st.mode st.safe_distance st.drone_name sd.lidar 0 0 =
        ⟨st.mode, 0, 0⟩ := by
      rw [lidarBlock_eq]
      simp [hob, hseen]
    have hpb := peerBlock_of_far ops st.safe_distance sd.telemetry.position
      (updateOtherPos st.other_drone_position messages)
      (lidarBlock ops st.mode st.safe_distance st.drone_name sd.lidar 0 0) hp
    refine ⟨?_, ?_, ?_⟩
    · rw [computeControl_mode, hpb, hlb]
    · intro hm
      have hv := computeControl_velocity ops st sd messages
      rw [hpb, hlb, show exploreBlock ops st.timestep ⟨st.mode, 0, 0⟩ =
        ⟨st.mode, (patternVec ops st.timestep).1, (patternVec ops st.timestep).2⟩
        from by simp [exploreBlock, hm]] at hv
      exact ⟨_, hv, rfl, rfl⟩
    · intro hm
      have hv := computeControl_velocity ops st sd messages
      rw [hpb, hlb, exploreBlock_of_ne ops st.timestep ⟨st.mode, 0, 0⟩
        (by simpa using hm)] at hv
      refine ⟨_, hv, ?_, ?_⟩ <;> norm_num [npClip]

/-- Witness for C3 amended: rule (1) at a state with both obstacle and peer
    close (mode AVOID), and rule (2) at a state with only the obstacle close
    (mode AVOID). -/
theorem C3_rule_order_amended_witness :
    (computeControl exOps stPeerAhead sdObstacle []).state.mode = "avoid" ∧
    (computeControl exOps stHover sdObstacle []).state.mode = "avoid" :=
  ⟨((C3_rule_order_amended exOps stPeerAhead sdObstacle []).1
      (by norm_num [peerClose, updateOtherPos, exOps, stPeerAhead, stHover,
        sdObstacle])).1,
    ((C3_rule_order_amended exOps stHover sdObstacle []).2.1
      (by simp [peerClose, updateOtherPos, stHover])
      (by norm_num [obstacleNear, frontPoints, List.filter, listMin, normSq, exOps,
        stHover, sdObstacle])).1⟩

/-- C3 counterexample: with the forward obstacle 2 units ahead (obstacle rule,
    priority 1, matches: distance 2 < safe_distance 5) and a peer 3 units
    ahead (peer rule also matches: 3 < 7.5), the emitted steering is the
    peer-avoidance vector `(-2, 0)`, not the obstacle-avoidance steering
    `(-1, obstacleSteerY)` that the claim's "first match wins" requires — the
    lower-priority rule overrode the matched higher-priority rule
    (`exOps.sqrt` agrees with the real square root at both evaluated
    arguments, 4 and 9). -/
theorem C3_first_match_counterexample :
    obstacleNear exOps stPeerAhead.safe_distance sdObstacle.lidar = true ∧
    peerClose exOps stPeerAhead.safe_distance sdObstacle.telemetry.position
      (updateOtherPos stPeerAhead.other_drone_position []) = true ∧
    exOps.sqrt 4 = 2 ∧ exOps.sqrt 9 = 3 ∧
    (computeControl exOps stPeerAhead sdObstacle []).commands.velocity =
      some ⟨-2, 0, 0⟩ ∧
    some (⟨-2, 0, 0⟩ : Vec3) ≠
      some (⟨-1, obstacleSteerY stPeerAhead.drone_name, 0⟩ : Vec3) := by
  refine ⟨?_, ?_, ?_, ?_, ?_, ?_⟩
  · norm_num [obstacleNear, frontPoints, List.filter, listMin, normSq, exOps,
      stPeerAhead, stHover, sdObstacle]
  · norm_num [peerClose, updateOtherPos, exOps, stPeerAhead, stHover, sdObstacle]
  · norm_num [exOps]
  · norm_num [exOps]
  · simp [computeControl, lidarBlock, peerBlock, peerAvoidVec, exploreBlock,
      updateOtherPos, stPeerAhead, stHover, sdObstacle, exOps, frontPoints,
      List.filter, listMin, normSq]
    norm_num [npClip]
    simp
    norm_num [npClip]
  · simp [obstacleSteerY, stPeerAhead, stHover]

end AirSim
